import Mathlib

/-!
Shallow embedding of the setoran (shift cash-reconciliation) service:
the calculation engine `calculate_setoran` (src/api/routes/setoran.py),
the pydantic validation layer (src/api/schemas/setoran.py), and the
create/read/update routes over persisted `Setoran` records.  Python
floats are modelled as rationals; the JSON text column holding the
line-item lists is modelled by the `Blob` type, whose `malformed`
constructor stands for a non-empty string that `json.loads` rejects.
-/

namespace Storan

/-- A single expense or income line item (`ExpenseItem` / `IncomeItem` in
src/api/schemas/setoran.py: a caller-assigned id, a description, an
amount). -/
structure LineItem where
  id : String
  description : String
  amount : ℚ
  deriving DecidableEq, Repr

/-- The validated creation payload `SetoranCreate`
(src/api/schemas/setoran.py, lines 19-60). -/
structure SetoranCreate where
  employee_name : String
  jam_masuk : String
  jam_keluar : String
  nomor_awal : ℚ
  nomor_akhir : ℚ
  qris_setoran : ℚ
  expenses : List LineItem
  income : List LineItem
  deriving DecidableEq, Repr

/-- The six derived totals `SetoranCalculation`
(src/api/schemas/setoran.py, lines 127-134). -/
structure SetoranCalculation where
  total_liter : ℚ
  total_setoran : ℚ
  cash_setoran : ℚ
  total_expenses : ℚ
  total_income : ℚ
  total_keseluruhan : ℚ
  deriving DecidableEq, Repr

/-- The fixed unit price: 1 liter = Rp 11500
(src/api/routes/setoran.py, line 19). -/
def UNIT_PRICE : ℚ := 11500

/-- Truthiness of Python `s.strip()`: stripping leading and trailing
whitespace yields the empty string exactly when every character of `s`
is whitespace. -/
def isBlank (s : String) : Bool :=
  s.data.all Char.isWhitespace

/-- The aggregation filter of lines 23-24 of src/api/routes/setoran.py:
`item.description.strip() and item.amount > 0`. -/
def keepItem (it : LineItem) : Bool :=
  !(isBlank it.description) && decide (0 < it.amount)

/-- Contribution of one item to the generator sum on lines 23-24. -/
def itemContrib (it : LineItem) : ℚ :=
  if keepItem it then it.amount else 0

/-- The generator sum `sum(item.amount for item in items if
item.description.strip() and item.amount > 0)` of lines 23-24. -/
def sumValidItems : List LineItem → ℚ
  | [] => 0
  | it :: rest => itemContrib it + sumValidItems rest

/-- `calculate_setoran` (src/api/routes/setoran.py, lines 13-36). -/
def calculate_setoran (data : SetoranCreate) : SetoranCalculation :=
  let total_liter := max 0 (data.nomor_akhir - data.nomor_awal)
  let total_setoran := total_liter * UNIT_PRICE
  let cash_setoran := max 0 (total_setoran - data.qris_setoran)
  let total_expenses := sumValidItems data.expenses
  let total_income := sumValidItems data.income
  let total_keseluruhan := cash_setoran + total_income - total_expenses
  { total_liter := total_liter
    total_setoran := total_setoran
    cash_setoran := cash_setoran
    total_expenses := total_expenses
    total_income := total_income
    total_keseluruhan := total_keseluruhan }

/-- The `HH:MM` pattern of `jam_masuk`/`jam_keluar`
(src/api/schemas/setoran.py, lines 22-23): hour `[01]?[0-9]|2[0-3]`,
minute `[0-5][0-9]`. -/
def isTimeHHMM (s : String) : Bool :=
  match s.data with
  | [h2, c, m1, m2] =>
      h2.isDigit && c == ':' && "012345".toList.contains m1 && m2.isDigit
  | [h1, h2, c, m1, m2] =>
      ((h1 == '0' || h1 == '1') && h2.isDigit ||
        h1 == '2' && "0123".toList.contains h2) &&
      c == ':' && "012345".toList.contains m1 && m2.isDigit
  | _ => false

/-- Item-level validation: `Field(min_length=1)` on the description,
`Field(ge=0)` on the amount (schemas lines 7-16), plus the
`validate_expenses`/`validate_income` checks that the stripped
description is non-empty and the amount non-negative (lines 42-60). -/
def validLineItem (it : LineItem) : Bool :=
  decide (1 ≤ it.description.length) && decide (0 ≤ it.amount) &&
  !(isBlank it.description)

/-- Full validation of a `SetoranCreate` payload
(src/api/schemas/setoran.py, lines 19-60): field constraints plus the
`validate_nomor_akhir` cross-field check. -/
def validSetoranCreate (d : SetoranCreate) : Bool :=
  decide (1 ≤ d.employee_name.length) &&
  isTimeHHMM d.jam_masuk && isTimeHHMM d.jam_keluar &&
  decide (0 ≤ d.nomor_awal) && decide (0 ≤ d.nomor_akhir) &&
  decide (d.nomor_awal ≤ d.nomor_akhir) &&
  decide (0 ≤ d.qris_setoran) &&
  d.expenses.all validLineItem && d.income.all validLineItem

/-- The JSON text column holding a line-item list: `empty` is a falsy
value (NULL or the empty string), `enc items` a well-formed
`json.dumps` encoding of `items` (the literal string `[]` is
`enc []`), and `malformed` a non-empty string `json.loads` rejects. -/
inductive Blob where
  | empty : Blob
  | enc : List LineItem → Blob
  | malformed : Blob
  deriving DecidableEq, Repr

/-- The `parse_expenses` pre-validator of `SetoranResponse`
(src/api/schemas/setoran.py, lines 108-115): `json.loads(v) if v else
[]` with `except json.JSONDecodeError: return []`. -/
def parse_expenses : Blob → List LineItem
  | Blob.empty => []
  | Blob.enc items => items
  | Blob.malformed => []

/-- The `parse_income` pre-validator of `SetoranResponse`
(src/api/schemas/setoran.py, lines 117-124), identical to
`parse_expenses`. -/
def parse_income : Blob → List LineItem
  | Blob.empty => []
  | Blob.enc items => items
  | Blob.malformed => []

/-- A persisted `Setoran` row (src/api/models/setoran.py); the
database id and timestamps are omitted. -/
structure Setoran where
  employee_name : String
  jam_masuk : String
  jam_keluar : String
  nomor_awal : ℚ
  nomor_akhir : ℚ
  total_liter : ℚ
  total_setoran : ℚ
  qris_setoran : ℚ
  cash_setoran : ℚ
  expenses_data : Blob
  total_expenses : ℚ
  income_data : Blob
  total_income : ℚ
  total_keseluruhan : ℚ
  deriving DecidableEq, Repr

/-- The `create_setoran` route (src/api/routes/setoran.py, lines
39-87).  FastAPI validates the `SetoranCreate` body before the handler
runs; an invalid body is rejected with no record created.  The handler
computes the totals and stores the item lists as JSON text
(`json.dumps(...) if items else "[]"`, both of which encode the list
itself). -/
def create_setoran (d : SetoranCreate) : Except String Setoran :=
  if validSetoranCreate d then
    let c := calculate_setoran d
    Except.ok
      { employee_name := d.employee_name
        jam_masuk := d.jam_masuk
        jam_keluar := d.jam_keluar
        nomor_awal := d.nomor_awal
        nomor_akhir := d.nomor_akhir
        total_liter := c.total_liter
        total_setoran := c.total_setoran
        qris_setoran := d.qris_setoran
        cash_setoran := c.cash_setoran
        expenses_data := Blob.enc d.expenses
        total_expenses := c.total_expenses
        income_data := Blob.enc d.income
        total_income := c.total_income
        total_keseluruhan := c.total_keseluruhan }
  else Except.error "ValidationError"

/-- The `SetoranUpdate` patch (src/api/schemas/setoran.py, lines
63-71): every field optional, no validators. `none` models a field
absent from `dict(exclude_unset=True)`. -/
structure SetoranUpdate where
  employee_name : Option String := none
  jam_masuk : Option String := none
  jam_keluar : Option String := none
  nomor_awal : Option ℚ := none
  nomor_akhir : Option ℚ := none
  qris_setoran : Option ℚ := none
  expenses : Option (List LineItem) := none
  income : Option (List LineItem) := none
  deriving DecidableEq, Repr

/-- The recompute trigger of line 148 of src/api/routes/setoran.py:
`any(key in update_data for key in [...])` over the five financially
significant fields. -/
def touchesFinancial (p : SetoranUpdate) : Bool :=
  p.nomor_awal.isSome || p.nomor_akhir.isSome || p.qris_setoran.isSome ||
  p.expenses.isSome || p.income.isSome

/-- The merged full input built on lines 150-159 of
src/api/routes/setoran.py: each patch field overlaid on the stored
record, stored blobs decoded (`json.loads(x) if x else []`). -/
def mergedInput (r : Setoran) (p : SetoranUpdate) : SetoranCreate :=
  { employee_name := p.employee_name.getD r.employee_name
    jam_masuk := p.jam_masuk.getD r.jam_masuk
    jam_keluar := p.jam_keluar.getD r.jam_keluar
    nomor_awal := p.nomor_awal.getD r.nomor_awal
    nomor_akhir := p.nomor_akhir.getD r.nomor_akhir
    qris_setoran := p.qris_setoran.getD r.qris_setoran
    expenses := p.expenses.getD (parse_expenses r.expenses_data)
    income := p.income.getD (parse_income r.income_data) }

/-- The `update_setoran` route (src/api/routes/setoran.py, lines
128-197).  When the patch touches a financial field: the stored blobs
are decoded eagerly (Python evaluates the `dict.get` default argument,
so a malformed blob raises `json.JSONDecodeError` even when the patch
replaces that list; the `except` clause rolls back and returns an
error), a full `SetoranCreate` is re-validated (a `ValueError` from
its validators is likewise caught, rolled back and surfaced), the six
derived fields are overwritten from `calculate_setoran`, and blobs are
re-encoded only for lists present in the patch.  Otherwise only the
non-financial fields present in the patch are assigned, with no
validation. -/
def update_setoran (r : Setoran) (p : SetoranUpdate) : Except String Setoran :=
  if touchesFinancial p then
    if r.expenses_data == Blob.malformed || r.income_data == Blob.malformed then
      Except.error "JSONDecodeError"
    else
      let merged := mergedInput r p
      if validSetoranCreate merged then
        let c := calculate_setoran merged
        Except.ok
          { r with
            employee_name := merged.employee_name
            jam_masuk := merged.jam_masuk
            jam_keluar := merged.jam_keluar
            nomor_awal := merged.nomor_awal
            nomor_akhir := merged.nomor_akhir
            qris_setoran := merged.qris_setoran
            total_liter := c.total_liter
            total_setoran := c.total_setoran
            cash_setoran := c.cash_setoran
            total_expenses := c.total_expenses
            total_income := c.total_income
            total_keseluruhan := c.total_keseluruhan
            expenses_data :=
              if p.expenses.isSome then Blob.enc merged.expenses
              else r.expenses_data
            income_data :=
              if p.income.isSome then Blob.enc merged.income
              else r.income_data }
      else Except.error "ValidationError"
  else
    Except.ok
      { r with
        employee_name := p.employee_name.getD r.employee_name
        jam_masuk := p.jam_masuk.getD r.jam_masuk
        jam_keluar := p.jam_keluar.getD r.jam_keluar }

/-- The commit-or-rollback semantics of the route: on success the new
row is persisted, on any caught exception `db.rollback()` restores the
pre-call row (src/api/routes/setoran.py, lines 183 and 192-197). -/
def commitUpdate (r : Setoran) (p : SetoranUpdate) : Setoran :=
  match update_setoran r p with
  | Except.ok r2 => r2
  | Except.error _ => r

/-- Whether a route outcome surfaced an error to the caller. -/
def isErr : Except String Setoran → Bool
  | Except.error _ => true
  | Except.ok _ => false

/-- The read paths `get_all_setoran` (per record, lines 100-102) and
`get_setoran_by_id` (lines 121-123): `json.loads(x) if x else []` on
both blobs, with NO try/except in the handler, so a malformed blob
raises and the error propagates to the caller. -/
def get_setoran_read (r : Setoran) :
    Except String (List LineItem × List LineItem) :=
  if r.expenses_data == Blob.malformed || r.income_data == Blob.malformed then
    Except.error "JSONDecodeError"
  else
    Except.ok (parse_expenses r.expenses_data, parse_income r.income_data)

/-- The input fields stored on a row, with the blobs decoded back into
line-item lists. -/
def storedInput (r : Setoran) : SetoranCreate :=
  { employee_name := r.employee_name
    jam_masuk := r.jam_masuk
    jam_keluar := r.jam_keluar
    nomor_awal := r.nomor_awal
    nomor_akhir := r.nomor_akhir
    qris_setoran := r.qris_setoran
    expenses := parse_expenses r.expenses_data
    income := parse_income r.income_data }

/-- The six derived fields stored on a row, as a `SetoranCalculation`. -/
def derivedOf (r : Setoran) : SetoranCalculation :=
  { total_liter := r.total_liter
    total_setoran := r.total_setoran
    cash_setoran := r.cash_setoran
    total_expenses := r.total_expenses
    total_income := r.total_income
    total_keseluruhan := r.total_keseluruhan }

/-- Rows reachable through the API: produced by `create_setoran` or by
any sequence of successful `update_setoran` calls. -/
inductive Reachable : Setoran → Prop where
  | created (d : SetoranCreate) (r : Setoran) :
      create_setoran d = Except.ok r → Reachable r
  | updated (r : Setoran) (p : SetoranUpdate) (r2 : Setoran) :
      Reachable r → update_setoran r p = Except.ok r2 → Reachable r2

/-- Pydantic default application for an omitted `qris_setoran`,
`expenses` and `income` (src/api/schemas/setoran.py, lines 29-34):
they default to `0`, `[]` and `[]`. -/
def mkSetoranCreateDefaults (name jm jk : String) (awal akhir : ℚ) :
    SetoranCreate :=
  { employee_name := name
    jam_masuk := jm
    jam_keluar := jk
    nomor_awal := awal
    nomor_akhir := akhir
    qris_setoran := 0
    expenses := []
    income := [] }

/-- A sample valid creation payload, used to instantiate the
reachability and update theorems on concrete data. -/
def dEx : SetoranCreate :=
  { employee_name := "andi"
    jam_masuk := "08:00"
    jam_keluar := "16:00"
    nomor_awal := 100
    nomor_akhir := 110
    qris_setoran := 0
    expenses := []
    income := [] }

/-- The row `create_setoran dEx` persists. -/
def rEx : Setoran :=
  { employee_name := "andi"
    jam_masuk := "08:00"
    jam_keluar := "16:00"
    nomor_awal := 100
    nomor_akhir := 110
    total_liter := 10
    total_setoran := 115000
    qris_setoran := 0
    cash_setoran := 115000
    expenses_data := Blob.enc []
    total_expenses := 0
    income_data := Blob.enc []
    total_income := 0
    total_keseluruhan := 115000 }

section Proofs

attribute [local semireducible] Rat.mul Rat.add Rat.sub

theorem sumValidItems_eq_map_sum (l : List LineItem) :
    sumValidItems l = (l.map itemContrib).sum := by
  induction l with
  | nil => rfl
  | cons it rest ih => simp [sumValidItems, ih]

theorem sumValidItems_eq_filter_sum (l : List LineItem) :
    sumValidItems l = ((l.filter keepItem).map LineItem.amount).sum := by
  induction l with
  | nil => rfl
  | cons it rest ih =>
    by_cases h : keepItem it
    · simp [sumValidItems, itemContrib, h, List.filter_cons, ih]
    · simp [sumValidItems, itemContrib, h, List.filter_cons, ih]

theorem sumValidItems_perm {l l2 : List LineItem} (h : l.Perm l2) :
    sumValidItems l = sumValidItems l2 := by
  rw [sumValidItems_eq_map_sum, sumValidItems_eq_map_sum]
  exact (h.map itemContrib).sum_eq

/-- C1: `calculate_setoran` returns exactly the specified totals:
`total_liter = max 0 (nomor_akhir - nomor_awal)`, `total_setoran =
total_liter * UNIT_PRICE` with `UNIT_PRICE = 11500`, `cash_setoran =
max 0 (total_setoran - qris_setoran)`, `total_expenses` and
`total_income` the sums of `amount` over items whose stripped
description is non-empty and whose amount is strictly positive, and
`total_keseluruhan = cash_setoran + total_income - total_expenses`
with no clamp — it is negative for some valid input.  Totality,
purity and determinism hold by construction: `calculate_setoran` is a
total Lean function. -/
theorem claim1_calculate_spec :
    (∀ d : SetoranCreate,
      calculate_setoran d =
        { total_liter := max 0 (d.nomor_akhir - d.nomor_awal)
          total_setoran := max 0 (d.nomor_akhir - d.nomor_awal) * UNIT_PRICE
          cash_setoran :=
            max 0 (max 0 (d.nomor_akhir - d.nomor_awal) * UNIT_PRICE -
              d.qris_setoran)
          total_expenses := ((d.expenses.filter keepItem).map LineItem.amount).sum
          total_income := ((d.income.filter keepItem).map LineItem.amount).sum
          total_keseluruhan :=
            max 0 (max 0 (d.nomor_akhir - d.nomor_awal) * UNIT_PRICE -
                d.qris_setoran) +
              ((d.income.filter keepItem).map LineItem.amount).sum -
              ((d.expenses.filter keepItem).map LineItem.amount).sum }) ∧
    UNIT_PRICE = 11500 ∧
    (∃ d : SetoranCreate, validSetoranCreate d = true ∧
      (calculate_setoran d).total_keseluruhan < 0) := by
  refine ⟨fun d => ?_, rfl,
    ⟨{ employee_name := "a", jam_masuk := "08:00", jam_keluar := "16:00",
       nomor_awal := 0, nomor_akhir := 0, qris_setoran := 0,
       expenses := [{ id := "1", description := "a", amount := 5 }],
       income := [] }, by decide, by decide⟩⟩
  simp [calculate_setoran, sumValidItems_eq_filter_sum]

/-- C4: the aggregation sum drops every item whose amount is `0` or
whose description is blank (whitespace-only), keeps every item with
strictly positive amount and non-blank description; a zero-amount item
can pass validation (`validLineItem`) yet contributes nothing — the
`> 0` aggregation filter is strictly stronger than the `>= 0`
validation bound; and `calculate_setoran` uses exactly this sum for
both totals. -/
theorem claim4_filter :
    (∀ (it : LineItem) (l : List LineItem),
      isBlank it.description = true ∨ it.amount = 0 →
      sumValidItems (it :: l) = sumValidItems l) ∧
    (∀ (it : LineItem) (l : List LineItem),
      isBlank it.description = false → 0 < it.amount →
      sumValidItems (it :: l) = it.amount + sumValidItems l) ∧
    (∃ it : LineItem, validLineItem it = true ∧ it.amount = 0 ∧
      ∀ l : List LineItem, sumValidItems (it :: l) = sumValidItems l) ∧
    (∀ d : SetoranCreate,
      (calculate_setoran d).total_expenses = sumValidItems d.expenses ∧
      (calculate_setoran d).total_income = sumValidItems d.income) := by
  refine ⟨fun it l h => ?_, fun it l h1 h2 => ?_,
    ⟨{ id := "1", description := "a", amount := 0 }, by decide, rfl,
      fun l => ?_⟩, fun d => ⟨rfl, rfl⟩⟩
  · rcases h with h | h
    · simp [sumValidItems, itemContrib, keepItem, h]
    · simp [sumValidItems, itemContrib, keepItem, h]
  · simp [sumValidItems, itemContrib, keepItem, h1, h2]
  · simp [sumValidItems, itemContrib, keepItem]

/-- Witness for C4 at concrete items: a whitespace-description item is
dropped and a positive, labelled item is added in. -/
theorem claim4_filter_witness :
    sumValidItems [{ id := "1", description := " ", amount := 30000 }] =
      sumValidItems [] ∧
    sumValidItems [{ id := "2", description := "oil", amount := 50000 }] =
      (50000 : ℚ) + sumValidItems [] :=
  ⟨claim4_filter.1 { id := "1", description := " ", amount := 30000 } []
      (Or.inl (by decide)),
    claim4_filter.2.1 { id := "2", description := "oil", amount := 50000 } []
      (by decide) (by decide)⟩

/-- C5: for every input — even one violating `nomor_awal ≤
nomor_akhir` — `total_liter` and `cash_setoran` are non-negative;
`total_liter` equals the meter difference whenever the invariant
holds; `cash_setoran` equals `total_setoran - qris_setoran` whenever
the QRIS amount does not exceed the gross sale, and is exactly `0`
(not negative, not an error) whenever it does. -/
theorem claim5_clamps (d : SetoranCreate) :
    0 ≤ (calculate_setoran d).total_liter ∧
    0 ≤ (calculate_setoran d).cash_setoran ∧
    (d.nomor_awal ≤ d.nomor_akhir →
      (calculate_setoran d).total_liter = d.nomor_akhir - d.nomor_awal) ∧
    (d.qris_setoran ≤ (calculate_setoran d).total_setoran →
      (calculate_setoran d).cash_setoran =
        (calculate_setoran d).total_setoran - d.qris_setoran) ∧
    ((calculate_setoran d).total_setoran < d.qris_setoran →
      (calculate_setoran d).cash_setoran = 0) := by
  simp only [calculate_setoran]
  exact ⟨le_max_left _ _, le_max_left _ _,
    fun h => max_eq_right (sub_nonneg.mpr h),
    fun h => max_eq_right (sub_nonneg.mpr h),
    fun h => max_eq_left (sub_nonpos.mpr h.le)⟩

/-- Witness for C5: gross sale 115000 with QRIS 150000 floors the cash
portion at zero, and the meter difference is returned exactly when the
invariant holds. -/
theorem claim5_clamps_witness :
    (calculate_setoran
        { employee_name := "a", jam_masuk := "08:00", jam_keluar := "16:00",
          nomor_awal := 0, nomor_akhir := 10, qris_setoran := 150000,
          expenses := [], income := [] }).cash_setoran = 0 ∧
    (calculate_setoran
        { employee_name := "a", jam_masuk := "08:00", jam_keluar := "16:00",
          nomor_awal := 0, nomor_akhir := 10, qris_setoran := 150000,
          expenses := [], income := [] }).total_liter = (10 : ℚ) - 0 :=
  ⟨(claim5_clamps _).2.2.2.2 (by decide),
    (claim5_clamps _).2.2.1 (by decide)⟩

/-- C8: `calculate_setoran` is invariant under any permutation of the
expense list and any permutation of the income list. -/
theorem claim8_perm (d : SetoranCreate) (exps incs : List LineItem)
    (hE : d.expenses.Perm exps) (hI : d.income.Perm incs) :
    calculate_setoran { d with expenses := exps, income := incs } =
      calculate_setoran d := by
  simp [calculate_setoran, sumValidItems_perm hE, sumValidItems_perm hI]

/-- Witness for C8 at a concrete transposition of a two-item expense
list. -/
theorem claim8_perm_witness :
    calculate_setoran
      { employee_name := "a", jam_masuk := "08:00", jam_keluar := "16:00",
        nomor_awal := 0, nomor_akhir := 10, qris_setoran := 0,
        expenses := [{ id := "2", description := "b", amount := 7 },
          { id := "1", description := "a", amount := 5 }],
        income := [] } =
    calculate_setoran
      { employee_name := "a", jam_masuk := "08:00", jam_keluar := "16:00",
        nomor_awal := 0, nomor_akhir := 10, qris_setoran := 0,
        expenses := [{ id := "1", description := "a", amount := 5 },
          { id := "2", description := "b", amount := 7 }],
        income := [] } :=
  claim8_perm
    { employee_name := "a", jam_masuk := "08:00", jam_keluar := "16:00",
      nomor_awal := 0, nomor_akhir := 10, qris_setoran := 0,
      expenses := [{ id := "1", description := "a", amount := 5 },
        { id := "2", description := "b", amount := 7 }],
      income := [] }
    [{ id := "2", description := "b", amount := 7 },
      { id := "1", description := "a", amount := 5 }]
    [] (by decide) (by decide)

/-- C10: a creation or preview payload may omit `qris_setoran`,
`expenses` and `income`; they default to `0`, `[]` and `[]`, and the
derived totals come out as if the QRIS amount were zero and both item
lists empty: zero expense and income totals, the whole gross sale as
cash, and the gross sale as the final total. -/
theorem claim10_defaults (name jm jk : String) (awal akhir : ℚ) :
    (mkSetoranCreateDefaults name jm jk awal akhir).qris_setoran = 0 ∧
    (mkSetoranCreateDefaults name jm jk awal akhir).expenses = [] ∧
    (mkSetoranCreateDefaults name jm jk awal akhir).income = [] ∧
    calculate_setoran (mkSetoranCreateDefaults name jm jk awal akhir) =
      { total_liter := max 0 (akhir - awal)
        total_setoran := max 0 (akhir - awal) * UNIT_PRICE
        cash_setoran := max 0 (akhir - awal) * UNIT_PRICE
        total_expenses := 0
        total_income := 0
        total_keseluruhan := max 0 (akhir - awal) * UNIT_PRICE } := by
  have hg : (0 : ℚ) ≤ max 0 (akhir - awal) * UNIT_PRICE :=
    mul_nonneg (le_max_left _ _) (by norm_num [UNIT_PRICE])
  refine ⟨rfl, rfl, rfl, ?_⟩
  simp [calculate_setoran, mkSetoranCreateDefaults, sumValidItems,
    sub_zero, max_eq_right hg]

/-- C6: a patch touching none of the five financial fields leaves the
six stored derived fields (and every financial input and blob)
byte-identical to their pre-patch values; only the identity/display
fields named in the patch change. -/
theorem claim6_frame (r : Setoran) (p : SetoranUpdate)
    (h : touchesFinancial p = false) :
    update_setoran r p =
      Except.ok
        { r with
          employee_name := p.employee_name.getD r.employee_name
          jam_masuk := p.jam_masuk.getD r.jam_masuk
          jam_keluar := p.jam_keluar.getD r.jam_keluar } ∧
    ∀ r2 : Setoran, update_setoran r p = Except.ok r2 →
      derivedOf r2 = derivedOf r := by
  have hu : update_setoran r p =
      Except.ok
        { r with
          employee_name := p.employee_name.getD r.employee_name
          jam_masuk := p.jam_masuk.getD r.jam_masuk
          jam_keluar := p.jam_keluar.getD r.jam_keluar } := by
    simp [update_setoran, h]
  refine ⟨hu, fun r2 hr2 => ?_⟩
  rw [hu] at hr2
  cases hr2
  rfl

/-- Witness for C6: renaming the employee on a concrete stored row
keeps all six derived fields identical. -/
theorem claim6_frame_witness :
    update_setoran rEx { employee_name := some "budi" } =
      Except.ok { rEx with employee_name := "budi" } ∧
    derivedOf { rEx with employee_name := "budi" } = derivedOf rEx :=
  ⟨(claim6_frame rEx { employee_name := some "budi" } (by decide)).1,
    (claim6_frame rEx { employee_name := some "budi" } (by decide)).2
      { rEx with employee_name := "budi" }
      (claim6_frame rEx { employee_name := some "budi" } (by decide)).1⟩

/-- C7: all-or-nothing on validation failure.  An invalid creation
payload creates no row, and a financial patch whose merged input fails
re-validation surfaces an error while the commit-or-rollback semantics
leaves the stored row exactly as before. -/
theorem claim7_all_or_nothing :
    (∀ d : SetoranCreate, validSetoranCreate d = false →
      create_setoran d = Except.error "ValidationError") ∧
    (∀ (r : Setoran) (p : SetoranUpdate), touchesFinancial p = true →
      validSetoranCreate (mergedInput r p) = false →
      isErr (update_setoran r p) = true ∧ commitUpdate r p = r) := by
  refine ⟨fun d h => by simp [create_setoran, h], fun r p ht hv => ?_⟩
  by_cases hm : r.expenses_data = Blob.malformed ∨ r.income_data = Blob.malformed
  · have he : update_setoran r p = Except.error "JSONDecodeError" := by
      rcases hm with hm | hm <;> simp [update_setoran, ht, hm]
    exact ⟨by simp [isErr, he], by simp [commitUpdate, he]⟩
  · push_neg at hm
    have he : update_setoran r p = Except.error "ValidationError" := by
      simp [update_setoran, ht, hm.1, hm.2, hv]
    exact ⟨by simp [isErr, he], by simp [commitUpdate, he]⟩

/-- Witness for C7: patching the end-meter below the stored
start-meter fails re-validation, surfaces an error, and leaves the
concrete stored row unchanged; an out-of-range creation payload is
rejected. -/
theorem claim7_all_or_nothing_witness :
    create_setoran { dEx with nomor_akhir := 50 } =
      Except.error "ValidationError" ∧
    isErr (update_setoran rEx { nomor_akhir := some 50 }) = true ∧
    commitUpdate rEx { nomor_akhir := some 50 } = rEx :=
  ⟨claim7_all_or_nothing.1 { dEx with nomor_akhir := 50 } (by decide),
    claim7_all_or_nothing.2 rEx { nomor_akhir := some 50 } (by decide)
      (by decide)⟩

/-- C9: a patch touching none of the five financial fields stores
`employee_name`, `jam_masuk` and `jam_keluar` exactly as given, with
no validation — an empty name or a non-`HH:MM` time string is accepted
and persisted; the same values in a patch that also touches a
financial field (here `qris_setoran`) are re-validated through
`SetoranCreate` and rejected. -/
theorem claim9_validation_asymmetry :
    (∀ (r : Setoran) (name jm jk : String),
      update_setoran r
          { employee_name := some name, jam_masuk := some jm,
            jam_keluar := some jk } =
        Except.ok
          { r with
            employee_name := name
            jam_masuk := jm
            jam_keluar := jk }) ∧
    (∀ (r : Setoran) (name jm jk : String) (q : ℚ),
      name.length = 0 ∨ isTimeHHMM jm = false ∨ isTimeHHMM jk = false →
      isErr (update_setoran r
          { employee_name := some name, jam_masuk := some jm,
            jam_keluar := some jk, qris_setoran := some q }) = true) := by
  refine ⟨fun r name jm jk => by simp [update_setoran, touchesFinancial],
    fun r name jm jk q h => ?_⟩
  by_cases hm : r.expenses_data = Blob.malformed ∨ r.income_data = Blob.malformed
  · rcases hm with hm | hm <;>
      simp [update_setoran, touchesFinancial, hm, isErr]
  · push_neg at hm
    have hv : validSetoranCreate
        (mergedInput r
          { employee_name := some name, jam_masuk := some jm,
            jam_keluar := some jk, qris_setoran := some q }) = false := by
      rcases h with h | h | h <;>
        simp [validSetoranCreate, mergedInput, h]
    simp [update_setoran, touchesFinancial, hm.1, hm.2, hv, isErr]

/-- Witness for C9: an empty employee name and a malformed clock-out
time are persisted verbatim by a non-financial patch on a concrete
row, but rejected once the same patch also sets `qris_setoran`. -/
theorem claim9_validation_asymmetry_witness :
    update_setoran rEx
        { employee_name := some "", jam_masuk := some "99:99",
          jam_keluar := some "x" } =
      Except.ok
        { rEx with
          employee_name := ""
          jam_masuk := "99:99"
          jam_keluar := "x" } ∧
    isErr (update_setoran rEx
        { employee_name := some "", jam_masuk := some "99:99",
          jam_keluar := some "x", qris_setoran := some 5 }) = true :=
  ⟨claim9_validation_asymmetry.1 rEx "" "99:99" "x",
    claim9_validation_asymmetry.2 rEx "" "99:99" "x" 5 (Or.inl rfl)⟩

theorem create_ok_consistent (d : SetoranCreate) (r : Setoran)
    (h : create_setoran d = Except.ok r) :
    derivedOf r = calculate_setoran (storedInput r) := by
  unfold create_setoran at h
  by_cases hv : validSetoranCreate d
  · simp only [hv, if_true] at h
    cases h
    rfl
  · simp [hv] at h

theorem update_ok_consistent (r : Setoran) (p : SetoranUpdate) (r2 : Setoran)
    (hr : derivedOf r = calculate_setoran (storedInput r))
    (h : update_setoran r p = Except.ok r2) :
    derivedOf r2 = calculate_setoran (storedInput r2) := by
  unfold update_setoran at h
  by_cases ht : touchesFinancial p
  · simp only [ht, if_true] at h
    by_cases hm : r.expenses_data == Blob.malformed ||
        r.income_data == Blob.malformed
    · simp [hm] at h
    · simp only [hm, Bool.false_eq_true, if_false] at h
      by_cases hv : validSetoranCreate (mergedInput r p)
      · simp only [hv, if_true, Except.ok.injEq] at h
        subst h
        have hsi : storedInput
            { r with
              employee_name := (mergedInput r p).employee_name
              jam_masuk := (mergedInput r p).jam_masuk
              jam_keluar := (mergedInput r p).jam_keluar
              nomor_awal := (mergedInput r p).nomor_awal
              nomor_akhir := (mergedInput r p).nomor_akhir
              qris_setoran := (mergedInput r p).qris_setoran
              total_liter := (calculate_setoran (mergedInput r p)).total_liter
              total_setoran :=
                (calculate_setoran (mergedInput r p)).total_setoran
              cash_setoran := (calculate_setoran (mergedInput r p)).cash_setoran
              total_expenses :=
                (calculate_setoran (mergedInput r p)).total_expenses
              total_income := (calculate_setoran (mergedInput r p)).total_income
              total_keseluruhan :=
                (calculate_setoran (mergedInput r p)).total_keseluruhan
              expenses_data :=
                if p.expenses.isSome then Blob.enc (mergedInput r p).expenses
                else r.expenses_data
              income_data :=
                if p.income.isSome then Blob.enc (mergedInput r p).income
                else r.income_data } = mergedInput r p := by
          rcases hpe : p.expenses with _ | le <;>
            rcases hpi : p.income with _ | li <;>
            simp [storedInput, mergedInput, parse_expenses, parse_income,
              hpe, hpi]
        rw [hsi]
        rfl
      · simp [hv] at h
  · simp only [ht, Bool.false_eq_true, if_false, Except.ok.injEq] at h
    subst h
    exact hr

/-- C2: every reachable row — one produced by `create_setoran` or by
any sequence of successful `update_setoran` calls — has its six stored
derived fields equal to `calculate_setoran` applied to its own stored
input fields (with the blobs decoded); and whenever a patch touches a
financial field, a successful update's derived fields are exactly
`calculate_setoran` of the patch overlaid on the stored inputs, absent
fields keeping their stored values. -/
theorem claim2_reachable_consistent :
    (∀ r : Setoran, Reachable r →
      derivedOf r = calculate_setoran (storedInput r)) ∧
    (∀ (r : Setoran) (p : SetoranUpdate) (r2 : Setoran),
      touchesFinancial p = true → update_setoran r p = Except.ok r2 →
      derivedOf r2 = calculate_setoran (mergedInput r p)) := by
  constructor
  · intro r h
    induction h with
    | created d r hc => exact create_ok_consistent d r hc
    | updated r p r2 _ hup ih => exact update_ok_consistent r p r2 ih hup
  · intro r p r2 ht hup
    unfold update_setoran at hup
    simp only [ht, if_true] at hup
    by_cases hm : r.expenses_data == Blob.malformed ||
        r.income_data == Blob.malformed
    · simp [hm] at hup
    · simp only [hm, Bool.false_eq_true, if_false] at hup
      by_cases hv : validSetoranCreate (mergedInput r p)
      · simp only [hv, if_true, Except.ok.injEq] at hup
        subst hup
        rfl
      · simp [hv] at hup

/-- Witness for C2: the concrete row created from `dEx` and then
updated with a new QRIS amount satisfies the invariant. -/
theorem claim2_reachable_consistent_witness :
    derivedOf rEx = calculate_setoran (storedInput rEx) ∧
    derivedOf
        { employee_name := "andi", jam_masuk := "08:00",
          jam_keluar := "16:00", nomor_awal := 100, nomor_akhir := 110,
          total_liter := 10, total_setoran := 115000, qris_setoran := 15000,
          cash_setoran := 100000, expenses_data := Blob.enc [],
          total_expenses := 0, income_data := Blob.enc [], total_income := 0,
          total_keseluruhan := 100000 } =
      calculate_setoran
        (storedInput
          { employee_name := "andi", jam_masuk := "08:00",
            jam_keluar := "16:00", nomor_awal := 100, nomor_akhir := 110,
            total_liter := 10, total_setoran := 115000, qris_setoran := 15000,
            cash_setoran := 100000, expenses_data := Blob.enc [],
            total_expenses := 0, income_data := Blob.enc [], total_income := 0,
            total_keseluruhan := 100000 }) ∧
    derivedOf
        { employee_name := "andi", jam_masuk := "08:00",
          jam_keluar := "16:00", nomor_awal := 100, nomor_akhir := 110,
          total_liter := 10, total_setoran := 115000, qris_setoran := 15000,
          cash_setoran := 100000, expenses_data := Blob.enc [],
          total_expenses := 0, income_data := Blob.enc [], total_income := 0,
          total_keseluruhan := 100000 } =
      calculate_setoran (mergedInput rEx { qris_setoran := some 15000 }) :=
  ⟨claim2_reachable_consistent.1 rEx (Reachable.created dEx rEx (by rfl)),
    claim2_reachable_consistent.1
      { employee_name := "andi", jam_masuk := "08:00",
        jam_keluar := "16:00", nomor_awal := 100, nomor_akhir := 110,
        total_liter := 10, total_setoran := 115000, qris_setoran := 15000,
        cash_setoran := 100000, expenses_data := Blob.enc [],
        total_expenses := 0, income_data := Blob.enc [], total_income := 0,
        total_keseluruhan := 100000 }
      (Reachable.updated rEx { qris_setoran := some 15000 } _
        (Reachable.created dEx rEx (by rfl)) (by rfl)),
    claim2_reachable_consistent.2 rEx { qris_setoran := some 15000 }
      { employee_name := "andi", jam_masuk := "08:00",
        jam_keluar := "16:00", nomor_awal := 100, nomor_akhir := 110,
        total_liter := 10, total_setoran := 115000, qris_setoran := 15000,
        cash_setoran := 100000, expenses_data := Blob.enc [],
        total_expenses := 0, income_data := Blob.enc [], total_income := 0,
        total_keseluruhan := 100000 }
      (by decide) (by rfl)⟩

/-- C3 counterexample: a stored row whose expenses blob is malformed
JSON makes the read path (`get_all_setoran` / `get_setoran_by_id`)
propagate a decode error to the caller instead of degrading to an
empty sequence. -/
theorem claim3_read_counterexample :
    get_setoran_read { rEx with expenses_data := Blob.malformed } =
      Except.error "JSONDecodeError" := rfl

/-- C3 amended: on a read, blobs that are NULL/empty or well-formed
decode back into the line-item sequences (a falsy blob degrading to
the empty sequence), and the schema-level `parse_expenses` /
`parse_income` validators degrade malformed JSON to the empty
sequence; but the route read handlers pre-decode with an unguarded
`json.loads`, so a malformed non-empty stored blob propagates an
error to the caller rather than degrading. -/
theorem claim3_read_decode :
    (∀ r : Setoran, r.expenses_data ≠ Blob.malformed →
      r.income_data ≠ Blob.malformed →
      get_setoran_read r =
        Except.ok (parse_expenses r.expenses_data,
          parse_income r.income_data)) ∧
    parse_expenses Blob.empty = [] ∧
    parse_income Blob.empty = [] ∧
    parse_expenses Blob.malformed = [] ∧
    parse_income Blob.malformed = [] ∧
    (∀ r : Setoran,
      r.expenses_data = Blob.malformed ∨ r.income_data = Blob.malformed →
      get_setoran_read r = Except.error "JSONDecodeError") := by
  refine ⟨fun r h1 h2 => ?_, rfl, rfl, rfl, rfl, fun r h => ?_⟩
  · simp [get_setoran_read, h1, h2]
  · rcases h with h | h <;> simp [get_setoran_read, h]

/-- Witness for C3 (amended): reading the concrete well-formed row
succeeds with its decoded (empty) item lists. -/
theorem claim3_read_decode_witness :
    get_setoran_read rEx = Except.ok ([], []) :=
  (claim3_read_decode.1 rEx (by decide) (by decide)).trans rfl

end Proofs

end Storan
